import Mathlib

/-!
Verification of the `export_dataset` audio post-processing pipeline of the
atekervoices platform (source: `src/export_dataset/__main__.py`).

Python strings are embedded as `List Char`; the handful of string methods the
source uses (`startswith`, `replace`, `isdigit`, `int(...)`, `strip`, path
joining) are given executable models below.  Machine floats appearing in the
normalization step are embedded as rationals, with IEEE non-finite results
(NaN/inf, produced by division by zero) represented by `none : Option ℚ`.
Filesystem and subprocess effects are embedded as an explicit environment
record; the per-file worker body becomes a pure function from that
environment to a result record that also counts the subprocess invocations
the real code would perform.
-/

namespace ExportDataset

/-- Embedded Python string. -/
abbrev Str := List Char

/-- Model of Python `pat + rest == s` test used via `part.startswith(pat)`:
`pyStartsWith pat s` is true iff `pat` is a prefix of `s`. -/
def pyStartsWith : Str → Str → Bool
  | [], _ => true
  | _ :: _, [] => false
  | p :: ps, c :: cs => p == c && pyStartsWith ps cs

/-- Fuel-driven worker for `pyReplaceAll`.  Replaces non-overlapping
occurrences of `pat` left to right, as Python `str.replace` does. -/
def replaceAllAux (pat repl : Str) : ℕ → Str → Str
  | _, [] => []
  | 0, s => s
  | fuel + 1, c :: cs =>
    if pat ≠ [] ∧ pyStartsWith pat (c :: cs) then
      repl ++ replaceAllAux pat repl fuel ((c :: cs).drop pat.length)
    else
      c :: replaceAllAux pat repl fuel cs

/-- Model of Python `s.replace(pat, repl)` (all occurrences, left to right,
non-overlapping).  The source only calls it with the non-empty pattern
`"user_"`, so the empty-pattern behavior is irrelevant here. -/
def pyReplaceAll (pat repl s : Str) : Str :=
  replaceAllAux pat repl s.length s

/-- Model of Python `s.isdigit()`: non-empty and every character a digit. -/
def pyIsDigit (s : Str) : Bool :=
  !s.isEmpty && s.all Char.isDigit

/-- Model of Python `int(s)` on an all-digit string. -/
def pyInt (s : Str) : ℕ :=
  s.foldl (fun acc c => acc * 10 + (c.toNat - 48)) 0

/-- Model of Python `s.strip()`: drop whitespace from both ends. -/
def pyStrip (s : Str) : Str :=
  ((s.dropWhile Char.isWhitespace).reverse.dropWhile Char.isWhitespace).reverse

/-- Fuel-driven worker for `natDigits`. -/
def natDigitsAux : ℕ → ℕ → Str → Str
  | 0, _, acc => acc
  | fuel + 1, n, acc =>
    if n < 10 then Char.ofNat (48 + n) :: acc
    else natDigitsAux fuel (n / 10) (Char.ofNat (48 + n % 10) :: acc)

/-- Decimal representation of a natural number, modelling Python
`str(user_id)` / f-string interpolation of an `int`. -/
def natDigits (n : ℕ) : Str :=
  natDigitsAux (n + 1) n []

/-! ## Normalization (`ExportAudio.__call__`, lines 297-301)

The source decodes 16-bit samples and then runs
`audio_16khz /= np.abs(np.max(audio_16khz))`.
A sample value is embedded as `ℚ`; the result of the numpy float division is
`Option ℚ`, with `none` standing for a non-finite IEEE value (0/0 = NaN,
x/0 = ±inf).  numpy emits a RuntimeWarning for these but raises no exception. -/

/-- Embeds `np.max` over a buffer (the source never feeds it an empty buffer on the
paths under study; the `[]` case is given an arbitrary total value). -/
def npMax : List ℚ → ℚ
  | [] => 0
  | x :: xs => xs.foldl max x

/-- IEEE float division with non-finite results collapsed to `none`
(`0/0 = NaN`, `x/0 = ±inf`; numpy raises no exception for either). -/
def f32Div (a b : ℚ) : Option ℚ :=
  if b = 0 then none else some (a / b)

/-- Embeds `audio_16khz /= np.abs(np.max(audio_16khz))`: every sample is
divided by the absolute value of the buffer maximum. -/
def normalizeAudio (xs : List ℚ) : List (Option ℚ) :=
  xs.map fun s => f32Div s |npMax xs|

/-! ## Silence trimming

The module `export_dataset/trim.py` is absent from `src/` (only its call site
in `__main__.py` is present), so `chunkify` and `trimSilence` below are
modelled from the spec, §4.2 "Silence Trimmer". -/

/-- Modelled from the spec: `export_dataset/trim.py` is absent from `src/`.
Spec §4.2 step 1: partition the samples into consecutive non-overlapping
chunks of `spc` samples, zero-padding a final short chunk so every chunk fed
to the classifier is full length.  `pad` is the zero of the sample type
(`(0 : ℚ)`, or `some 0` for possibly-non-finite samples). -/
def chunkifyAux {α : Type} (pad : α) (spc : ℕ) : ℕ → List α → List (List α)
  | 0, _ => []
  | _, [] => []
  | fuel + 1, c :: cs =>
    let chunk := (c :: cs).take spc
    (chunk ++ List.replicate (spc - chunk.length) pad) ::
      chunkifyAux pad spc fuel ((c :: cs).drop spc)

/-- Modelled from the spec (see `chunkifyAux`). -/
def chunkify {α : Type} (pad : α) (spc : ℕ) (samples : List α) : List (List α) :=
  chunkifyAux pad spc samples.length samples

/-- Modelled from the spec: `export_dataset/trim.py` is absent from `src/`.
Spec §4.2 `trim(samples, classifier, threshold, samples_per_chunk,
sample_rate, keep_chunks_before, keep_chunks_after)`:
score every chunk, call a chunk speech iff its probability is `≥ threshold`
(boundary ties count as speech), fail open to `(0, none)` when no speech is
found, expand the speech range by the padding chunk counts clamped to the
sequence bounds, and convert the kept chunk range to seconds.  A
`threshold ≤ 0` short-circuits trimming entirely (spec §4.2 edge cases). -/
def trimSilence {α : Type} (pad : α) (samples : List α) (score : List α → ℚ)
    (threshold : ℚ) (spc sr b a : ℕ) : ℚ × Option ℚ :=
  if threshold ≤ 0 then (0, none)
  else
    let probs := (chunkify pad spc samples).map score
    let speech := (List.range probs.length).filter fun i =>
      decide (threshold ≤ probs.getD i 0)
    match speech.head?, speech.getLast? with
    | some first, some last =>
      let firstKept := first - b
      let lastKept := min (probs.length - 1) (last + a)
      (((firstKept * spc : ℕ) : ℚ) / (sr : ℚ),
        some ((((lastKept - firstKept + 1) * spc : ℕ) : ℚ) / (sr : ℚ)))
    | _, _ => (0, none)

/-! ## Data model of the export run -/

/-- A discovered audio file, identified by its path relative to the input
root: directory components, file stem, and extension (e.g. `".webm"`). -/
structure AudioFile where
  dirs : List Str
  stem : Str
  ext : Str
deriving DecidableEq

/-- Embeds `audio_path.relative_to(input_dir).parts`: every path component,
the file name included. -/
def pathPartsOf (f : AudioFile) : List Str :=
  f.dirs ++ [f.stem ++ f.ext]

/-- Embeds `str(wav_path.relative_to(wav_dir))`, i.e. the relative input path with
the extension normalized to `.wav`, joined with `/`. -/
def wavIdOf (f : AudioFile) : Str :=
  List.intercalate "/".data (f.dirs ++ [f.stem ++ ".wav".data])

/-- The three speaker fields consumed by the metadata row
(`speaker_id`, `age`, `gender`).  The database dictionaries additionally
carry `username`/`email`, which no downstream consumer reads. -/
structure SpeakerInfo where
  speaker_id : Str
  age : Str
  gender : Str
deriving DecidableEq

/-- A value of the `recording_status` mapping built by
`get_user_database_info`. -/
structure ValidationInfo where
  status : Str
  validation_notes : Str
  validated_by : Str
  validated_date : Str
deriving DecidableEq

/-- A row of the `User` table as consumed by `get_user_database_info`. -/
structure UserDbRow where
  id : ℕ
  age_group : Option Str
  gender : Option Str
deriving DecidableEq

/-- A row of the `Recording` table as consumed by
`get_user_database_info`. -/
structure RecordingDbRow where
  user_id : ℕ
  language : Str
  prompt_group : Str
  prompt_id : Str
  status : Str
  validation_notes : Option Str
  validated_by : Str
  validated_date : Option Str
deriving DecidableEq

/-- Embeds the recording key
`"user_<uid>/<language>/<prompt_group>/<prompt_id>.wav"` built at line 53. -/
def recKey (r : RecordingDbRow) : Str :=
  "user_".data ++ natDigits r.user_id ++ "/".data ++ r.language ++ "/".data ++
    r.prompt_group ++ "/".data ++ r.prompt_id ++ ".wav".data

/-- One line of `metadata.csv` below the header. -/
structure Row where
  id : Str
  text : Str
  audio_file : Str
  speaker_id : Str
  age : Str
  gender : Str
  status : Str
deriving DecidableEq

/-- Command-line arguments of the export run (`argparse` section of
`main`). -/
structure Args where
  threshold : ℚ
  samplesPerChunk : ℕ
  keepChunksBefore : ℕ
  keepChunksAfter : ℕ
  skipExistingWav : Bool
deriving DecidableEq

/-- The effectful surroundings of one run, embedded as data: the filesystem
as seen by the run, the outcomes of the ffmpeg subprocess invocations, the
VAD model, and the external database. -/
structure Env where
  /-- Whether `shutil.which` finds ffmpeg. -/
  ffmpegAvailable : Bool
  /-- The bulk database load raises an exception. -/
  dbRaises : Bool
  dbUsers : List UserDbRow
  dbRecordings : List RecordingDbRow
  /-- The sibling transcript `<stem>.txt` exists. -/
  textExists : AudioFile → Bool
  /-- Contents of the sibling transcript file. -/
  textContent : AudioFile → Str
  /-- The output WAV for this file exists before the run. -/
  wavExists : AudioFile → Bool
  /-- Size `wav_path.stat().st_size` of a pre-existing output WAV. -/
  wavSize : AudioFile → ℕ
  /-- The ffmpeg decode-to-PCM (`subprocess.check_output`) succeeds. -/
  decodeOk : AudioFile → Bool
  /-- The decoded 16-bit samples (as integers) for this file. -/
  decodedSamples : AudioFile → List ℚ
  /-- The ffmpeg WAV transcode (`subprocess.check_call`) succeeds. -/
  transcodeOk : AudioFile → Bool
  /-- The VAD detector: one chunk of possibly-non-finite samples in,
  a speech probability out. -/
  score : List (Option ℚ) → ℚ

/-- Embeds `get_user_database_info`: bulk-load the user and recording tables into
the two in-memory mappings; any exception is caught and turns into a pair of
empty mappings (`except ...: return {}, {}`). -/
def get_user_database_info (env : Env) :
    List (ℕ × SpeakerInfo) × List (Str × ValidationInfo) :=
  if env.dbRaises then ([], [])
  else
    (env.dbUsers.map fun u =>
      (u.id, ⟨"user_".data ++ natDigits u.id, u.age_group.getD [], u.gender.getD []⟩),
     env.dbRecordings.map fun r =>
      (recKey r, ⟨r.status, r.validation_notes.getD [], r.validated_by,
        r.validated_date.getD []⟩))

/-- Embeds `extract_speaker_info`: search the relative path components for the first
one starting with `user_`, strip the marker (Python `replace`, i.e. all
occurrences), and resolve through the user mapping; misses fall back to
`unknown` or to `user_<id>` with empty demographics. -/
def extract_speaker_info (parts : List Str) (user_mapping : List (ℕ × SpeakerInfo)) :
    SpeakerInfo :=
  match parts.find? (fun part => pyStartsWith "user_".data part) with
  | none => ⟨"unknown".data, [], []⟩
  | some part =>
    let user_id_str := pyReplaceAll "user_".data [] part
    if pyIsDigit user_id_str then
      let user_id := pyInt user_id_str
      match user_mapping.lookup user_id with
      | some info => info
      | none => ⟨"user_".data ++ natDigits user_id, [], []⟩
    else ⟨"unknown".data, [], []⟩

/-- The metadata row written under `writer_lock` (lines 334-353): id and
audio_file are both the wav-relative path, speaker fields come from
`extract_speaker_info`, and the status defaults to `pending` when the wav id
is absent from the `recording_status` mapping. -/
def makeRow (um : List (ℕ × SpeakerInfo)) (rs : List (Str × ValidationInfo))
    (f : AudioFile) (text : Str) : Row :=
  let wav_id := wavIdOf f
  let sp := extract_speaker_info (pathPartsOf f) um
  let status :=
    match rs.lookup wav_id with
    | some v => v.status
    | none => "pending".data
  ⟨wav_id, text, wav_id, sp.speaker_id, sp.age, sp.gender, status⟩

/-- Observable outcome of one `ExportAudio.__call__` invocation: the emitted
metadata row (if any), the number of ffmpeg decode-to-PCM and WAV-transcode
subprocess invocations, the number of VAD chunk classifications, whether the
output WAV was (re)written by a successful transcode, whether the
missing-transcript warning fired, and the `(offset_sec, duration_sec)` pair
passed to the transcode command (when one was computed). -/
structure FileResult where
  row : Option Row
  decodeCalls : ℕ
  transcodeCalls : ℕ
  classifierCalls : ℕ
  wavWritten : Bool
  warnedMissingText : Bool
  offsetDuration : Option (ℚ × Option ℚ)
deriving DecidableEq

/-- Embeds `ExportAudio.__call__` (lines 245-357), control flow mirrored
branch by branch: missing transcript → warn and return; skip-existing test; threshold
short-circuit; decode + normalize + trim; transcode; row emission.  Any
subprocess failure is caught by the surrounding `try`/`except` and yields no
row. -/
def exportAudio (um : List (ℕ × SpeakerInfo)) (rs : List (Str × ValidationInfo))
    (env : Env) (args : Args) (f : AudioFile) : FileResult :=
  if env.textExists f then
    if (args.skipExistingWav = false) ∨ (env.wavExists f = false) ∨ (env.wavSize f = 0) then
      if args.threshold ≤ 0 then
        if env.transcodeOk f then
          ⟨some (makeRow um rs f (pyStrip (env.textContent f))), 0, 1, 0, true, false,
            some (0, none)⟩
        else ⟨none, 0, 1, 0, false, false, some (0, none)⟩
      else if env.decodeOk f then
        if env.transcodeOk f then
          ⟨some (makeRow um rs f (pyStrip (env.textContent f))), 1, 1,
            (chunkify (some (0 : ℚ)) args.samplesPerChunk
              (normalizeAudio (env.decodedSamples f))).length, true, false,
            some (trimSilence (some (0 : ℚ)) (normalizeAudio (env.decodedSamples f))
              env.score args.threshold args.samplesPerChunk 16000
              args.keepChunksBefore args.keepChunksAfter)⟩
        else ⟨none, 1, 1,
          (chunkify (some (0 : ℚ)) args.samplesPerChunk
            (normalizeAudio (env.decodedSamples f))).length, false, false,
          some (trimSilence (some (0 : ℚ)) (normalizeAudio (env.decodedSamples f))
            env.score args.threshold args.samplesPerChunk 16000
            args.keepChunksBefore args.keepChunksAfter)⟩
      else ⟨none, 1, 0, 0, false, false, none⟩
    else
      ⟨some (makeRow um rs f (pyStrip (env.textContent f))), 0, 0, 0, false, false, none⟩
  else ⟨none, 0, 0, 0, false, true, none⟩

/-- Outcome of `main`: the value `main` returns (`some 1` on the
missing-ffmpeg path, `none` when it falls off the end), whether the fatal
ffmpeg log line fired, and the per-file results of the dispatched work in
discovery order (the thread-pool interleaving is abstracted to a sequential
traversal). -/
structure MainResult where
  mainReturn : Option ℕ
  fatalFfmpeg : Bool
  results : List FileResult
deriving DecidableEq

/-- Embeds `main` (lines 180-236): check for ffmpeg (fatal + `return 1` before any
dispatch), bulk-load the database mappings, then dispatch one
`ExportAudio.__call__` per discovered file. -/
def runMain (env : Env) (args : Args) (files : List AudioFile) : MainResult :=
  if env.ffmpegAvailable then
    ⟨none, false, files.map (exportAudio (get_user_database_info env).1
      (get_user_database_info env).2 env args)⟩
  else ⟨some 1, true, []⟩

/-- The `__main__` entry (lines 365-366) is `main()` — the return value of
`main` is discarded and `sys.exit` is never called, so the interpreter
process exits with status 0 whenever `main` returns normally. -/
def processExitCode (_ : MainResult) : ℕ := 0

/-- The metadata table body: the rows emitted by the dispatched tasks. -/
def metadataRows (results : List FileResult) : List Row :=
  results.filterMap fun res => res.row

/-! ## Helper lemmas -/

/-- Every branch of `exportAudio` that emits a row emits exactly
`makeRow um rs f (pyStrip (env.textContent f))`, and only when the sibling
transcript exists. -/
lemma exportAudio_row_some {um : List (ℕ × SpeakerInfo)}
    {rs : List (Str × ValidationInfo)} {env : Env} {args : Args}
    {f : AudioFile} {r : Row}
    (h : (exportAudio um rs env args f).row = some r) :
    env.textExists f = true ∧ r = makeRow um rs f (pyStrip (env.textContent f)) := by
  unfold exportAudio at h
  split_ifs at h <;> simp_all

/-- With the skip-existing flag set and a non-empty output WAV already
present, `exportAudio` takes the skip branch: the row is emitted with no
subprocess invocation at all. -/
lemma exportAudio_skip {um : List (ℕ × SpeakerInfo)}
    {rs : List (Str × ValidationInfo)} {env : Env} {args : Args} {f : AudioFile}
    (htext : env.textExists f = true) (hskip : args.skipExistingWav = true)
    (hwav : env.wavExists f = true) (hsz : env.wavSize f ≠ 0) :
    exportAudio um rs env args f =
      ⟨some (makeRow um rs f (pyStrip (env.textContent f))), 0, 0, 0, false, false, none⟩ := by
  unfold exportAudio
  split_ifs <;> simp_all

/-- If a Boolean predicate on `ℕ` holds below `N` exactly at `k < N`, then
filtering `range N` by it leaves the singleton `[k]`. -/
lemma filter_range_singleton {p : ℕ → Bool} {N k : ℕ} (hk : k < N)
    (h : ∀ i, i < N → (p i = true ↔ i = k)) :
    (List.range N).filter p = [k] := by
  induction N with
  | zero => omega
  | succ n ih =>
    rw [List.range_succ, List.filter_append]
    by_cases hkn : k = n
    · subst hkn
      have h1 : (List.range k).filter p = [] := by
        refine List.filter_eq_nil_iff.mpr ?_
        intro i hi
        rw [List.mem_range] at hi
        intro hpi
        exact absurd ((h i (by omega)).mp hpi) (by omega)
      have h2 : p k = true := (h k (by omega)).mpr rfl
      simp [h1, h2, List.filter]
    · have hkn' : k < n := by omega
      have h1 : (List.range n).filter p = [k] :=
        ih hkn' fun i hi => h i (by omega)
      have h2 : p n = false := by
        by_contra hpn
        have := (h n (by omega)).mp (by simpa using hpn)
        omega
      simp [h1, h2, List.filter]

/-! ## Claim theorems -/

/-- C1: on an all-zero decoded buffer the normalization line
`audio_16khz /= np.abs(np.max(audio_16khz))` divides by zero: no exception
is raised, but every output sample is the non-finite value `0/0 = NaN`
(`none` in the embedding), not the pass-through zero buffer the claim (and
spec §4.3) require.  The guard for the zero-amplitude case is missing from
the code. -/
theorem c1_all_zero_buffer_yields_nan :
    normalizeAudio [0, 0, 0] = [none, none, none] := by
  norm_num [normalizeAudio, npMax, f32Div]

/-- C4: the code divides by `np.abs(np.max(buffer))` — the absolute value of
the (signed) maximum — not by the maximum absolute sample value.  On the
decoded buffer `[-100, 50]` the divisor is `50`, so the first output sample
is `-2`, outside `[-1, 1]`; dividing by the maximum absolute value `100`, as
the claim states, would have kept every sample inside `[-1, 1]`. -/
theorem c4_normalization_exceeds_unit_range :
    normalizeAudio [-100, 50] = [some (-2), some 1] ∧ (-2 : ℚ) < -1 := by
  have h : npMax [-100, 50] = 50 := by
    simp [npMax]
    norm_num [max_eq_right]
  refine ⟨?_, by norm_num⟩
  simp [normalizeAudio, f32Div, h]
  norm_num

/-! Concrete fixtures used by the witness theorems. -/

/-- The spec §8 sample recording `user_7/teo/g1/001.webm`. -/
def fileA : AudioFile :=
  ⟨["user_7".data, "teo".data, "g1".data], "001".data, ".webm".data⟩

/-- A benign environment: everything present and succeeding. -/
def envA : Env where
  ffmpegAvailable := true
  dbRaises := false
  dbUsers := []
  dbRecordings := []
  textExists := fun _ => true
  textContent := fun _ => "hello".data
  wavExists := fun _ => true
  wavSize := fun _ => 44
  decodeOk := fun _ => true
  decodedSamples := fun _ => []
  transcodeOk := fun _ => true
  score := fun _ => 0

/-- Arguments with the skip-existing flag set. -/
def argsSkip : Args := ⟨1, 480, 5, 5, true⟩

/-- Arguments with trimming disabled by a zero threshold. -/
def argsZeroThreshold : Args := ⟨0, 480, 5, 5, false⟩

/-- C5: a metadata row is only ever emitted for a file whose WAV was written
by a successful transcode in this run, or — with the skip-existing flag —
already existed with non-zero size. -/
theorem c5_row_implies_wav_present (um : List (ℕ × SpeakerInfo))
    (rs : List (Str × ValidationInfo)) (env : Env) (args : Args)
    (f : AudioFile) (r : Row)
    (h : (exportAudio um rs env args f).row = some r) :
    ((exportAudio um rs env args f).wavWritten = true ∧ env.transcodeOk f = true)
    ∨ (args.skipExistingWav = true ∧ env.wavExists f = true ∧ env.wavSize f ≠ 0) := by
  unfold exportAudio at h ⊢
  split_ifs at h ⊢ with h1 h2 h3 h4 h5 h6 <;> simp_all

/-- Witness for C5 at a concrete input (skip-existing branch). -/
theorem c5_row_implies_wav_present_witness :
    ((exportAudio [] [] envA argsSkip fileA).wavWritten = true
      ∧ envA.transcodeOk fileA = true)
    ∨ (argsSkip.skipExistingWav = true ∧ envA.wavExists fileA = true
      ∧ envA.wavSize fileA ≠ 0) :=
  c5_row_implies_wav_present [] [] envA argsSkip fileA
    (makeRow [] [] fileA (pyStrip (envA.textContent fileA))) rfl

/-- C8: a discovered file with no sibling transcript is skipped entirely
after the warning — no row, no decode, no transcode, no classification — and
the run still dispatches every discovered file. -/
theorem c8_missing_transcript_skipped (um : List (ℕ × SpeakerInfo))
    (rs : List (Str × ValidationInfo)) (env : Env) (args : Args)
    (files : List AudioFile) (f : AudioFile)
    (hff : env.ffmpegAvailable = true) (hmiss : env.textExists f = false) :
    (exportAudio um rs env args f).row = none
    ∧ (exportAudio um rs env args f).decodeCalls = 0
    ∧ (exportAudio um rs env args f).transcodeCalls = 0
    ∧ (exportAudio um rs env args f).classifierCalls = 0
    ∧ (exportAudio um rs env args f).warnedMissingText = true
    ∧ (runMain env args files).results.length = files.length := by
  unfold exportAudio runMain
  simp [hmiss, hff]

/-- An environment in which no transcript files exist. -/
def envNoText : Env :=
  { envA with textExists := fun _ => false }

/-- Witness for C8 at a concrete input. -/
theorem c8_missing_transcript_skipped_witness :
    (exportAudio [] [] envNoText argsSkip fileA).row = none
    ∧ (exportAudio [] [] envNoText argsSkip fileA).decodeCalls = 0
    ∧ (exportAudio [] [] envNoText argsSkip fileA).transcodeCalls = 0
    ∧ (exportAudio [] [] envNoText argsSkip fileA).classifierCalls = 0
    ∧ (exportAudio [] [] envNoText argsSkip fileA).warnedMissingText = true
    ∧ (runMain envNoText argsSkip [fileA]).results.length = [fileA].length :=
  c8_missing_transcript_skipped [] [] envNoText argsSkip [fileA] fileA rfl rfl

/-- C9: a non-positive threshold short-circuits trimming for every file:
no decode-for-analysis, no classifier invocation, and whenever the pipeline
reaches the transcode step the `(offset, duration)` it uses is `(0, none)`
(keep everything). -/
theorem c9_threshold_nonpos_short_circuit (um : List (ℕ × SpeakerInfo))
    (rs : List (Str × ValidationInfo)) (env : Env) (args : Args)
    (f : AudioFile) (ht : args.threshold ≤ 0) :
    (exportAudio um rs env args f).decodeCalls = 0
    ∧ (exportAudio um rs env args f).classifierCalls = 0
    ∧ ∀ od, (exportAudio um rs env args f).offsetDuration = some od →
        od = ((0 : ℚ), (none : Option ℚ)) := by
  unfold exportAudio
  split_ifs <;> simp_all

/-- Witness for C9 at a concrete input: trimming is disabled there, the
pipeline still transcodes, and the decision it uses is `(0, none)`. -/
theorem c9_threshold_nonpos_short_circuit_witness :
    (exportAudio [] [] envA argsZeroThreshold fileA).decodeCalls = 0
    ∧ (exportAudio [] [] envA argsZeroThreshold fileA).classifierCalls = 0
    ∧ (exportAudio [] [] envA argsZeroThreshold fileA).offsetDuration =
        some ((0 : ℚ), (none : Option ℚ)) :=
  ⟨(c9_threshold_nonpos_short_circuit [] [] envA argsZeroThreshold fileA le_rfl).1,
   (c9_threshold_nonpos_short_circuit [] [] envA argsZeroThreshold fileA le_rfl).2.1,
   rfl⟩

/-- A file whose transcript is missing yields the warn-and-return result. -/
lemma exportAudio_noText {um : List (ℕ × SpeakerInfo)}
    {rs : List (Str × ValidationInfo)} {env : Env} {args : Args} {f : AudioFile}
    (h : env.textExists f = false) :
    exportAudio um rs env args f = ⟨none, 0, 0, 0, false, true, none⟩ := by
  unfold exportAudio
  simp [h]

/-- C3: re-running the export with the skip-existing flag over a directory
whose outputs all exist with non-zero size performs zero decode and zero
transcode subprocess invocations, and the metadata table it emits is
identical to the first run's (the environments agree on transcripts and on
the bulk-loaded mappings; the first run emitted a row for every file that
had a transcript). -/
theorem c3_skip_existing_idempotent (um : List (ℕ × SpeakerInfo))
    (rs : List (Str × ValidationInfo)) (env1 env2 : Env) (args1 args2 : Args)
    (files : List AudioFile)
    (hskip : args2.skipExistingWav = true)
    (htext : ∀ f ∈ files,
      env1.textExists f = env2.textExists f ∧ env1.textContent f = env2.textContent f)
    (hwav : ∀ f ∈ files, env2.wavExists f = true ∧ env2.wavSize f ≠ 0)
    (hfirst : ∀ f ∈ files, env1.textExists f = true →
      ((exportAudio um rs env1 args1 f).row).isSome = true) :
    (∀ f ∈ files, (exportAudio um rs env2 args2 f).decodeCalls = 0
      ∧ (exportAudio um rs env2 args2 f).transcodeCalls = 0)
    ∧ metadataRows (files.map (exportAudio um rs env2 args2))
      = metadataRows (files.map (exportAudio um rs env1 args1)) := by
  have key : ∀ f ∈ files,
      (exportAudio um rs env2 args2 f).row = (exportAudio um rs env1 args1 f).row
      ∧ (exportAudio um rs env2 args2 f).decodeCalls = 0
      ∧ (exportAudio um rs env2 args2 f).transcodeCalls = 0 := by
    intro f hf
    by_cases ht2 : env2.textExists f = true
    · have hsk := @exportAudio_skip um rs env2 args2 f
        ht2 hskip (hwav f hf).1 (hwav f hf).2
      have ht1 : env1.textExists f = true := (htext f hf).1.trans ht2
      obtain ⟨r, hr⟩ := Option.isSome_iff_exists.mp (hfirst f hf ht1)
      have hre := (exportAudio_row_some hr).2
      rw [hsk, hr, hre, (htext f hf).2]
      exact ⟨rfl, rfl, rfl⟩
    · have ht2' : env2.textExists f = false := by simpa using ht2
      have ht1' : env1.textExists f = false := (htext f hf).1.trans ht2'
      rw [exportAudio_noText ht1', exportAudio_noText ht2']
      exact ⟨rfl, rfl, rfl⟩
  refine ⟨fun f hf => ⟨(key f hf).2.1, (key f hf).2.2⟩, ?_⟩
  unfold metadataRows
  rw [List.filterMap_map, List.filterMap_map]
  exact List.filterMap_congr fun f hf => (key f hf).1

/-- The environment of the first run: no output WAVs yet, transcode
succeeds. -/
def envFirstRun : Env :=
  { envA with wavExists := fun _ => false }

/-- Witness for C3 at a concrete input: the re-run's table equals the first
run's, with zero subprocess invocations. -/
theorem c3_skip_existing_idempotent_witness :
    (exportAudio [] [] envA argsSkip fileA).decodeCalls = 0
    ∧ (exportAudio [] [] envA argsSkip fileA).transcodeCalls = 0
    ∧ metadataRows ([fileA].map (exportAudio [] [] envA argsSkip))
      = metadataRows ([fileA].map (exportAudio [] [] envFirstRun argsZeroThreshold)) := by
  have h := c3_skip_existing_idempotent [] [] envFirstRun envA argsZeroThreshold argsSkip
    [fileA] rfl
    (fun f hf => ⟨rfl, rfl⟩)
    (fun f hf => ⟨rfl, by simp [envA]⟩)
    (by
      intro f hf ht
      have : f = fileA := by simpa using hf
      subst this
      rfl)
  exact ⟨(h.1 fileA (by simp)).1, (h.1 fileA (by simp)).2, h.2⟩

/-- C7: metadata-resolution misses are never errors.  (a) a path with no
parsable `user_<digits>` component resolves to speaker `unknown` with empty
demographics; (b) a parsed id absent from the user mapping resolves to the
synthesized `user_<id>` with empty demographics; (c) a wav id absent from the
validation mapping gets status `pending`; (d) none of this blocks emission:
whenever the pipeline reaches the row step (here: the skip-existing branch)
the row is emitted. -/
theorem c7_metadata_miss_defaults (um : List (ℕ × SpeakerInfo))
    (rs : List (Str × ValidationInfo)) (env : Env) (args : Args) (f : AudioFile) :
    ((∀ part ∈ pathPartsOf f, pyStartsWith "user_".data part = true →
        pyIsDigit (pyReplaceAll "user_".data [] part) = false) →
      extract_speaker_info (pathPartsOf f) um = ⟨"unknown".data, [], []⟩)
    ∧ (∀ part, (pathPartsOf f).find? (fun q => pyStartsWith "user_".data q) = some part →
        pyIsDigit (pyReplaceAll "user_".data [] part) = true →
        um.lookup (pyInt (pyReplaceAll "user_".data [] part)) = none →
        extract_speaker_info (pathPartsOf f) um =
          ⟨"user_".data ++ natDigits (pyInt (pyReplaceAll "user_".data [] part)), [], []⟩)
    ∧ (rs.lookup (wavIdOf f) = none →
        ∀ text, (makeRow um rs f text).status = "pending".data)
    ∧ (env.textExists f = true → args.skipExistingWav = true →
        env.wavExists f = true → env.wavSize f ≠ 0 →
        (exportAudio um rs env args f).row =
          some (makeRow um rs f (pyStrip (env.textContent f)))) := by
  refine ⟨?_, ?_, ?_, ?_⟩
  · intro h
    unfold extract_speaker_info
    cases hfind : (pathPartsOf f).find? (fun q => pyStartsWith "user_".data q) with
    | none => rfl
    | some part =>
      have hmem := List.mem_of_find?_eq_some hfind
      have hpred : pyStartsWith "user_".data part = true := List.find?_some hfind
      simp [h part hmem hpred]
  · intro part hfind hdig hlook
    simp [extract_speaker_info, hfind, hdig, hlook]
  · intro h text
    simp [makeRow, h]
  · intro h1 h2 h3 h4
    rw [exportAudio_skip h1 h2 h3 h4]

/-- A recording whose first `user_` path component has a non-numeric id. -/
def fileNP : AudioFile := ⟨["user_abc".data], "x".data, ".webm".data⟩

/-- Witness for C7 at concrete inputs: an unparsable id gives `unknown`, a
parsed id missing from an empty user table gives `user_7`, a wav id missing
from an empty validation table gives `pending`, and the row is still
emitted. -/
theorem c7_metadata_miss_defaults_witness :
    extract_speaker_info (pathPartsOf fileNP) [] = ⟨"unknown".data, [], []⟩
    ∧ extract_speaker_info (pathPartsOf fileA) [] =
        ⟨"user_".data ++ natDigits (pyInt (pyReplaceAll "user_".data [] "user_7".data)),
          [], []⟩
    ∧ (makeRow [] [] fileA "hello".data).status = "pending".data
    ∧ (exportAudio [] [] envA argsSkip fileA).row =
        some (makeRow [] [] fileA (pyStrip (envA.textContent fileA))) :=
  ⟨(c7_metadata_miss_defaults [] [] envA argsSkip fileNP).1 (by decide),
   (c7_metadata_miss_defaults [] [] envA argsSkip fileA).2.1 "user_7".data
     (by decide) (by decide) rfl,
   (c7_metadata_miss_defaults [] [] envA argsSkip fileA).2.2.1 rfl "hello".data,
   (c7_metadata_miss_defaults [] [] envA argsSkip fileA).2.2.2 rfl rfl rfl
     (by simp [envA])⟩

/-- With an empty user mapping, speaker resolution can only produce the
`unknown` fallback or a synthesized `user_<id>`, always with empty
demographics. -/
lemma extract_speaker_info_empty (parts : List Str) :
    extract_speaker_info parts [] = ⟨"unknown".data, [], []⟩
    ∨ ∃ n : ℕ, extract_speaker_info parts [] = ⟨"user_".data ++ natDigits n, [], []⟩ := by
  unfold extract_speaker_info
  cases hfind : parts.find? (fun q => pyStartsWith "user_".data q) with
  | none => exact Or.inl rfl
  | some part =>
    by_cases hdig : pyIsDigit (pyReplaceAll "user_".data [] part) = true
    · exact Or.inr ⟨pyInt (pyReplaceAll "user_".data [] part), by simp [hdig]⟩
    · exact Or.inl (by simp [hdig])

/-- C10: if the bulk database load raises, the loader returns empty mappings
and the run proceeds over every discovered file; every row that is still
emitted carries path-derived speaker info (`unknown` or `user_<id>`) with
empty demographics and validation status `pending`. -/
theorem c10_db_failure_fallback (env : Env) (args : Args) (files : List AudioFile)
    (hdb : env.dbRaises = true) (hff : env.ffmpegAvailable = true) :
    get_user_database_info env = ([], [])
    ∧ (runMain env args files).mainReturn = none
    ∧ (runMain env args files).results.length = files.length
    ∧ ∀ res ∈ (runMain env args files).results, ∀ r : Row, res.row = some r →
        (r.speaker_id = "unknown".data
          ∨ ∃ n : ℕ, r.speaker_id = "user_".data ++ natDigits n)
        ∧ r.age = [] ∧ r.gender = [] ∧ r.status = "pending".data := by
  have hg : get_user_database_info env = ([], []) := by
    simp [get_user_database_info, hdb]
  refine ⟨hg, by simp [runMain, hff], by simp [runMain, hff], ?_⟩
  intro res hres r hr
  simp only [runMain, hff, if_pos, List.mem_map] at hres
  obtain ⟨f, hf, hfe⟩ := hres
  rw [← hfe, hg] at hr
  have hre := (exportAudio_row_some hr).2
  rw [hre]
  rcases extract_speaker_info_empty (pathPartsOf f) with h | ⟨n, h⟩ <;>
    simp [makeRow, h]

/-- An environment whose database load raises. -/
def envDbRaises : Env := { envA with dbRaises := true }

/-- Witness for C10 at a concrete input. -/
theorem c10_db_failure_fallback_witness :
    get_user_database_info envDbRaises = ([], [])
    ∧ (runMain envDbRaises argsSkip [fileA]).mainReturn = none
    ∧ (runMain envDbRaises argsSkip [fileA]).results.length = [fileA].length
    ∧ (makeRow [] [] fileA (pyStrip (envDbRaises.textContent fileA))).age = []
    ∧ (makeRow [] [] fileA (pyStrip (envDbRaises.textContent fileA))).gender = []
    ∧ (makeRow [] [] fileA (pyStrip (envDbRaises.textContent fileA))).status =
        "pending".data := by
  have h := c10_db_failure_fallback envDbRaises argsSkip [fileA] rfl rfl
  have h4 := h.2.2.2
    (exportAudio [] [] envDbRaises argsSkip fileA)
    (by decide)
    (makeRow [] [] fileA (pyStrip (envDbRaises.textContent fileA)))
    rfl
  exact ⟨h.1, h.2.1, h.2.2.1, h4.2.1, h4.2.2.1, h4.2.2.2⟩

/-- An environment in which the ffmpeg binary is not on the path. -/
def envNoFfmpeg : Env := { envA with ffmpegAvailable := false }

/-- C2: with ffmpeg missing, `main` logs the fatal message and returns 1
before dispatching any per-file work (no results) — but the `__main__` entry
calls `main()` without `sys.exit`, so the interpreter discards that return
value and the process exits with status 0, not the non-zero exit code the
claim requires. -/
theorem c2_missing_ffmpeg_aborts_but_exits_zero :
    runMain envNoFfmpeg argsSkip [fileA] =
      ⟨some 1, true, []⟩
    ∧ processExitCode (runMain envNoFfmpeg argsSkip [fileA]) = 0 :=
  ⟨rfl, rfl⟩

/-- C6: when exactly one chunk index `k` of the `N` scored chunks reaches the
threshold (`threshold > 0`), the trim result keeps chunks
`max(0, k - b)` through `min(N - 1, k + a)` inclusive:
offset `= max(0, k - b) * spc / sr` seconds and duration
`= (min(N-1, k+a) - max(0, k-b) + 1) * spc / sr` seconds (natural-number
subtraction `k - b` is exactly `max(0, k - b)`).  `trimSilence` is modelled
from spec §4.2 because `export_dataset/trim.py` is absent from `src/`. -/
theorem c6_single_speech_chunk_trim (samples : List ℚ) (score : List ℚ → ℚ)
    (t : ℚ) (spc sr b a N k : ℕ)
    (ht : 0 < t) (hk : k < N)
    (hN : ((chunkify (0 : ℚ) spc samples).map score).length = N)
    (hprob : ∀ i, i < N →
      (t ≤ ((chunkify (0 : ℚ) spc samples).map score).getD i 0 ↔ i = k)) :
    trimSilence (0 : ℚ) samples score t spc sr b a =
      ((((k - b) * spc : ℕ) : ℚ) / (sr : ℚ),
        some ((((min (N - 1) (k + a) - (k - b) + 1) * spc : ℕ) : ℚ) / (sr : ℚ))) := by
  have hfil : (List.range N).filter
      (fun i => decide (t ≤ ((chunkify (0 : ℚ) spc samples).map score).getD i 0)) = [k] :=
    filter_range_singleton hk fun i hi => by simpa using hprob i hi
  simp only [trimSilence, if_neg (not_le.mpr ht), hfil, hN,
    List.head?_cons, List.getLast?_singleton]

/-- The classifier of the C6 witness: probability 2 on the chunk `[1, 1]`,
0 elsewhere. -/
def scoreW : List ℚ → ℚ := fun c => if c = [1, 1] then 2 else 0

/-- Witness for C6 at a concrete input: six samples in chunks of two, speech
only in chunk 1, padding 5 chunks each side clamped to `[0, 2]`, sample rate
4: offset 0 seconds, duration (2 - 0 + 1) * 2 / 4 seconds. -/
theorem c6_single_speech_chunk_trim_witness :
    trimSilence (0 : ℚ) [0, 0, 1, 1, 0, 0] scoreW 1 2 4 5 5 =
      ((((1 - 5) * 2 : ℕ) : ℚ) / ((4 : ℕ) : ℚ),
        some ((((min (3 - 1) (1 + 5) - (1 - 5) + 1) * 2 : ℕ) : ℚ) / ((4 : ℕ) : ℚ))) :=
  c6_single_speech_chunk_trim [0, 0, 1, 1, 0, 0] scoreW 1 2 4 5 5 3 1
    (by norm_num) (by norm_num) (by decide) (by decide)

end ExportDataset
